import Mathlib

/-!
# SprintSync frontend task flow: a shallow embedding

This file embeds the task-transition and cache-invalidation flow of the
SprintSync React client:

* the task data model and status enum (`frontend/src/types/index.ts`),
* the status-advance cycle and add-time guard of the task card component,
* the Kanban board's drag-end handler and per-status column filters
  (`frontend/src/pages/Kanban.tsx`),
* the REST client's header construction and error mapping
  (`frontend/src/lib/api.ts`),
* the React Query mutation hooks for tasks (`useTasks.ts`) and the query
  client's default options (`App.tsx`), modelled as effect lists acting on a
  small cache state.

Stateful library behaviour (the query cache, toasts) is modelled by explicit
effect values and a state-transition function; fallible operations return
`Option` or a sum-like outcome type.
-/

namespace SprintSync

/-- Task status enum from `frontend/src/types/index.ts`:
`TODO`, `IN_PROGRESS`, `DONE`. -/
inductive TaskStatus where
  | TODO
  | IN_PROGRESS
  | DONE
deriving DecidableEq, Repr

/-- The `Task` entity from `frontend/src/types/index.ts`. `total_minutes` is a
non-negative integer; `description` and `assigned_to` are nullable. -/
structure Task where
  id : String
  title : String
  description : Option String
  status : TaskStatus
  total_minutes : Nat
  user_id : String
  assigned_to : Option String
  created_at : String
  updated_at : String
deriving DecidableEq, Repr

/-- `getNextStatus` from the task card component: the "advance" cycle
`TODO → IN_PROGRESS → DONE → TODO`.  (The source's `default` branch is
unreachable: the three cases are exhaustive over the status union type.) -/
def getNextStatus : TaskStatus → TaskStatus
  | .TODO => .IN_PROGRESS
  | .IN_PROGRESS => .DONE
  | .DONE => .TODO

/-- `tasksByStatus` from `Kanban.tsx`: the three column filters, in column
order TODO, IN_PROGRESS, DONE. -/
def tasksByStatus (tasks : List Task) : List Task × List Task × List Task :=
  (tasks.filter (fun task => task.status == TaskStatus.TODO),
   tasks.filter (fun task => task.status == TaskStatus.IN_PROGRESS),
   tasks.filter (fun task => task.status == TaskStatus.DONE))

/-- The runtime string value of a status: the `TaskStatus` union in
`types/index.ts` is a const object of string literals, so status values are
these strings at runtime. -/
def statusString : TaskStatus → String
  | .TODO => "TODO"
  | .IN_PROGRESS => "IN_PROGRESS"
  | .DONE => "DONE"

/-- A drag-end event as consumed by `handleDragEnd` in `Kanban.tsx`:
`active.id` is the dragged task's id and `over` is the droppable the pointer
released on, or `null` when outside every droppable.  The registered
droppables are the three columns (`KanbanColumn`'s `useDroppable({ id })`
with the column's status as id) *and every task card*
(`KanbanTaskCard`'s `useSortable({ id: task.id })`), so `over.id` is a raw
string: a status string for a column, a task id for a card. -/
structure DragEndEvent where
  activeId : String
  overId : Option String
deriving DecidableEq, Repr

/-- `handleDragEnd` from `Kanban.tsx`, as the status-update mutation it
issues: `none` when the handler returns without mutating, `some (id, status)`
for the single `updateStatusMutation.mutate` call with that payload.  The
source's `const newStatus = over.id as TaskStatus` is a compile-time-only
cast: at runtime `newStatus` is whatever string `over.id` holds, the
`task.status === newStatus` guard is a string comparison, and the mutation
payload carries that raw string as the requested status. -/
def handleDragEnd (tasks : List Task) (event : DragEndEvent) :
    Option (String × String) :=
  match event.overId with
  | none => none
  | some newStatus =>
    match tasks.find? (fun t => t.id == event.activeId) with
    | none => none
    | some task =>
      if statusString task.status = newStatus then none
      else some (event.activeId, newStatus)

/-- A sample task used by concrete witnesses below. -/
def sampleTask : Task :=
  { id := "t1", title := "Write tests", description := none,
    status := TaskStatus.TODO, total_minutes := 0, user_id := "u1",
    assigned_to := none, created_at := "2025-01-01", updated_at := "2025-01-01" }

/-- A TODO task with id `a1`, rendered as a card in the TODO column. -/
def cardTaskA : Task :=
  { id := "a1", title := "Task A", description := none,
    status := TaskStatus.TODO, total_minutes := 0, user_id := "u1",
    assigned_to := none, created_at := "2025-01-01", updated_at := "2025-01-01" }

/-- A second TODO task with id `b1`, a sibling card in the same column. -/
def cardTaskB : Task :=
  { cardTaskA with id := "b1", title := "Task B" }

/-! ## The add-time input guard (task card component)

`handleAddTime` runs `const minutes = parseInt(timeInput); if (minutes > 0) ...`.
`parseInt` is the JS builtin (radix argument omitted): skip leading
whitespace, read an optional sign, switch to radix 16 after a `0x`/`0X`
prefix, then read the longest prefix of radix digits; no digit at all gives
`NaN`.  `NaN` is modelled as `none`, and `NaN > 0` is `false` in JS, matching
the `none` branch of the guard. -/

/-- Whitespace skipped by JS `parseInt` (the common ASCII white space). -/
def isSpaceChar (c : Char) : Bool :=
  c = ' ' ∨ c = '\t' ∨ c = '\n' ∨ c = '\r'

/-- Decimal digit value of a character, if any. -/
def decDigitValue (c : Char) : Option Nat :=
  if '0' ≤ c ∧ c ≤ '9' then some (c.toNat - '0'.toNat) else none

/-- Hexadecimal digit value of a character, if any. -/
def hexDigitValue (c : Char) : Option Nat :=
  if '0' ≤ c ∧ c ≤ '9' then some (c.toNat - '0'.toNat)
  else if 'a' ≤ c ∧ c ≤ 'f' then some (c.toNat - 'a'.toNat + 10)
  else if 'A' ≤ c ∧ c ≤ 'F' then some (c.toNat - 'A'.toNat + 10)
  else none

/-- Accumulate the longest prefix of digits at the given radix. -/
def readDigits (digit : Char → Option Nat) (radix : Nat) :
    List Char → Nat → Nat
  | [], acc => acc
  | c :: cs, acc =>
    match digit c with
    | some d => readDigits digit radix cs (acc * radix + d)
    | none => acc

/-- Parse a non-empty digit prefix at the given radix; `none` when the first
character is not a digit (JS `parseInt` yields `NaN` there). -/
def readNumber (digit : Char → Option Nat) (radix : Nat)
    (cs : List Char) : Option Nat :=
  match cs with
  | [] => none
  | c :: _ =>
    match digit c with
    | some _ => some (readDigits digit radix cs 0)
    | none => none

/-- The JS builtin `parseInt(s)` with the radix argument omitted, returning
`none` for `NaN`. -/
def parseIntJS (s : String) : Option Int :=
  let cs := s.data.dropWhile isSpaceChar
  let signAndRest : Int × List Char :=
    match cs with
    | '-' :: rest => (-1, rest)
    | '+' :: rest => (1, rest)
    | _ => (1, cs)
  let sign := signAndRest.1
  match signAndRest.2 with
  | '0' :: x :: rest =>
    if x = 'x' ∨ x = 'X' then
      (readNumber hexDigitValue 16 rest).map (fun n => sign * n)
    else
      (readNumber decDigitValue 10 ('0' :: x :: rest)).map (fun n => sign * n)
  | other => (readNumber decDigitValue 10 other).map (fun n => sign * n)

/-- `handleAddTime` from the task card component, as the add-time mutation it
issues: `none` when no request is made, `some (id, minutes)` for the single
`addTime.mutate` call.  The source guard is `if (minutes > 0)`; when
`parseInt` returned `NaN` the comparison is `false`, so no request fires. -/
def handleAddTime (timeInput : String) (taskId : String) :
    Option (String × Int) :=
  match parseIntJS timeInput with
  | none => none
  | some minutes => if minutes > 0 then some (taskId, minutes) else none

/-! ## The cache layer and the task mutation hooks

React Query's cache, restricted to the `['tasks']` collection key the task
hooks touch, is a pair (cached data, staleness flag).  A mutation handler is
embedded as the list of client effects it performs, in program order; the
only cache-affecting primitives the code could use are
`invalidateQueries` (marks the key stale) and `setQueryData` (writes data
into the cache directly — used nowhere in the hooks, present in the effect
type so its absence is a provable statement). -/

/-- An observable client effect performed by a mutation callback. -/
inductive ClientEffect where
  | invalidate (queryKey : List String)
  | setQueryData (queryKey : List String) (tasks : List Task)
  | toastSuccess (msg : String)
  | toastError (msg : String)
deriving DecidableEq, Repr

/-- The query cache, restricted to the `['tasks']` key. -/
structure QueryCache where
  tasksData : Option (List Task)
  tasksStale : Bool
deriving DecidableEq, Repr

/-- Action of one client effect on the cache: `invalidateQueries` marks the
key stale, `setQueryData` installs data fresh, toasts leave the cache
untouched. -/
def applyEffect (cache : QueryCache) : ClientEffect → QueryCache
  | .invalidate key =>
    if key = ["tasks"] then { cache with tasksStale := true } else cache
  | .setQueryData key tasks =>
    if key = ["tasks"] then { tasksData := some tasks, tasksStale := false }
    else cache
  | .toastSuccess _ => cache
  | .toastError _ => cache

/-- Action of a callback's effect list on the cache, in program order. -/
def applyEffects (cache : QueryCache) (effects : List ClientEffect) :
    QueryCache :=
  effects.foldl applyEffect cache

/-- Whether the next `useTasks` read goes to the network: it does exactly
when the cached entry is stale or missing. -/
def nextTasksReadHitsNetwork (cache : QueryCache) : Bool :=
  cache.tasksStale || cache.tasksData.isNone

/-- The read semantics of `useTasks`: serve fresh cached data without
fetching, otherwise fetch and install the server's task list. -/
def useTasksRead (cache : QueryCache) (server : List Task) :
    List Task × QueryCache :=
  match cache.tasksData with
  | some data =>
    if cache.tasksStale then (server, { tasksData := some server, tasksStale := false })
    else (data, cache)
  | none => (server, { tasksData := some server, tasksStale := false })

/-- A task mutation hook from `useTasks.ts`: its `onSuccess` callback (a
function of the task returned by the server; hooks that ignore the response
are constant in it), its `onError` callback, and its `retry` option
(`none` = not configured). -/
structure MutationHook where
  onSuccess : Task → List ClientEffect
  onError : List ClientEffect
  retry : Option Nat

/-- The per-status success toast of `useUpdateTaskStatus` (its `msgs`
lookup table; the `|| 'Task updated'` fallback is unreachable since the
three keys are exhaustive over the status union type). -/
def statusToastMsg : TaskStatus → String
  | .TODO => "Moved to Todo"
  | .IN_PROGRESS => "Started!"
  | .DONE => "Done! 🎉"

/-- `useCreateTask` from `useTasks.ts`. -/
def useCreateTask : MutationHook where
  onSuccess := fun _ =>
    [ClientEffect.invalidate ["tasks"], ClientEffect.toastSuccess "Task created!"]
  onError := [ClientEffect.toastError "Failed to create task"]
  retry := none

/-- `useUpdateTask` from `useTasks.ts`. -/
def useUpdateTask : MutationHook where
  onSuccess := fun _ =>
    [ClientEffect.invalidate ["tasks"], ClientEffect.toastSuccess "Task updated!"]
  onError := [ClientEffect.toastError "Failed to update task"]
  retry := none

/-- `useUpdateTaskStatus` from `useTasks.ts`. -/
def useUpdateTaskStatus : MutationHook where
  onSuccess := fun task =>
    [ClientEffect.invalidate ["tasks"],
     ClientEffect.toastSuccess (statusToastMsg task.status)]
  onError := [ClientEffect.toastError "Failed to update status"]
  retry := none

/-- `useAddTimeToTask` from `useTasks.ts`; the success toast interpolates the
returned task's `total_minutes`. -/
def useAddTimeToTask : MutationHook where
  onSuccess := fun task =>
    [ClientEffect.invalidate ["tasks"],
     ClientEffect.toastSuccess ("+" ++ toString task.total_minutes ++ "min logged")]
  onError := [ClientEffect.toastError "Failed to add time"]
  retry := none

/-- `useDeleteTask` from `useTasks.ts` (its endpoint returns no body; the
ignored `Task` argument keeps the hook type uniform). -/
def useDeleteTask : MutationHook where
  onSuccess := fun _ =>
    [ClientEffect.invalidate ["tasks"], ClientEffect.toastSuccess "Deleted"]
  onError := [ClientEffect.toastError "Delete failed"]
  retry := none

/-- The five task mutation hooks exported by `useTasks.ts`. -/
def taskMutationHooks : List MutationHook :=
  [useCreateTask, useUpdateTask, useUpdateTaskStatus, useAddTimeToTask,
   useDeleteTask]

/-- Whether an effect writes data into the cache directly. -/
def isCacheWrite : ClientEffect → Bool
  | .setQueryData _ _ => true
  | _ => false

/-- The error path of a Kanban status update: the hook's `onError` runs,
then the `onError` of the `mutate` call in `handleDragEnd`
(`toast.error('Failed to update task status')`). -/
def kanbanStatusUpdateErrorEffects : List ClientEffect :=
  useUpdateTaskStatus.onError ++
    [ClientEffect.toastError "Failed to update task status"]

/-- The query client's `defaultOptions.queries` from `App.tsx`. -/
structure QueryDefaults where
  staleTime : Nat
  retry : Nat
deriving DecidableEq, Repr

/-- `new QueryClient({ defaultOptions: { queries: { staleTime: 1000*60*5,
retry: 1 } } })` from `App.tsx`; no `mutations` defaults are given. -/
def queryClientDefaults : QueryDefaults where
  staleTime := 1000 * 60 * 5
  retry := 1

/-- Retries actually performed for a failed mutation: React Query's
documented default when `retry` is not configured on a mutation is `0`
(the spec likewise states mutations are not automatically retried). -/
def effectiveMutationRetries (hook : MutationHook) : Nat :=
  hook.retry.getD 0

/-- Modelled from the spec: the backend add-time endpoint
(`POST /tasks/{id}/time`, not part of the client sources) returns the
updated task, whose `total_minutes` is the prior total plus the minutes just
added ("server returns the updated task with new total_minutes"; testable
property: adding `m` to a task with total `t` yields total `t + m`). -/
def serverAddTime (task : Task) (minutes : Nat) : Task :=
  { task with total_minutes := task.total_minutes + minutes }

/-- A fresh cache entry used by concrete witnesses below. -/
def freshCache : QueryCache where
  tasksData := some [sampleTask]
  tasksStale := false

/-! ## The REST client (`frontend/src/lib/api.ts`)

`ApiClient.getHeaders` reads the token with
`localStorage.getItem('access_token')` (a string or `null`, embedded as
`Option String`) and attaches the `Authorization` header under the JS
truthiness guard `if (token)` — which is `false` both for `null` and for the
empty string.

`ApiClient.request` checks `response.ok` (status 200–299); on a non-ok
response it reads the body text, parses it as JSON, and throws an `Error`
whose message is `errorData.detail || errorData.message || fallback` where
`fallback` is the string `HTTP <status>: <statusText>` (JS `||` skips falsy
values, so an absent or empty field falls through).  On an ok response it
returns the parsed JSON body.  `JSON.parse` is external; its outcome on the
body is the `BodyParse` input, where a parsed object is projected to the two
fields the code consults. -/

/-- JS truthiness of an optional string (`null` and `''` are falsy). -/
def jsTruthy : Option String → Bool
  | none => false
  | some s => s ≠ ""

/-- `ApiClient.getHeaders`: `Content-Type` always; `Authorization: Bearer
<token>` added under `if (token)`. -/
def ApiClient.getHeaders (storedToken : Option String) :
    List (String × String) :=
  let base := [("Content-Type", "application/json")]
  if jsTruthy storedToken then
    base ++ [("Authorization", "Bearer " ++ storedToken.getD "")]
  else base

/-- The headers `ApiClient.request` sends: `{...this.getHeaders(),
...options.headers}`.  No call of `request` in `api.ts` passes
`options.headers`, so the spread merge is `getHeaders` itself. -/
def ApiClient.requestHeaders (storedToken : Option String) :
    List (String × String) :=
  ApiClient.getHeaders storedToken

/-- The error-relevant projection of a JSON body parsed by `JSON.parse`:
the `detail` and `message` fields (a missing field reads as `undefined`,
embedded as `none`). -/
structure ErrorBody where
  detail : Option String
  message : Option String
deriving DecidableEq, Repr

/-- The outcome of `JSON.parse` on the response body text. -/
inductive BodyParse where
  | failure
  | value (body : ErrorBody)
deriving DecidableEq, Repr

/-- The observable outcome of `ApiClient.request`: resolve with the parsed
body, throw an `Error` with a message, or rethrow the `JSON.parse`
syntax error of an ok response whose body is not JSON (the `catch` block
rethrows any `Error` unchanged). -/
inductive RequestOutcome where
  | returned (body : ErrorBody)
  | thrown (msg : String)
  | thrownParse
deriving DecidableEq, Repr

/-- JS `a || b` on an optional string `a` (skips `undefined` and `''`). -/
def jsOrString (a : Option String) (b : String) : String :=
  match a with
  | some s => if s = "" then b else s
  | none => b

/-- The generic message `HTTP <status>: <statusText>` that `request`
initialises `errorMessage` with. -/
def fallbackMessage (status : Nat) (statusText : String) : String :=
  "HTTP " ++ toString status ++ ": " ++ statusText

/-- `ApiClient.request`, as a function of the response's status, status
text, and body-parse outcome. -/
def ApiClient.request (status : Nat) (statusText : String)
    (body : BodyParse) : RequestOutcome :=
  if 200 ≤ status ∧ status ≤ 299 then
    match body with
    | .value b => RequestOutcome.returned b
    | .failure => RequestOutcome.thrownParse
  else
    match body with
    | .failure => RequestOutcome.thrown (fallbackMessage status statusText)
    | .value b =>
      RequestOutcome.thrown
        (jsOrString b.detail
          (jsOrString b.message (fallbackMessage status statusText)))

/-! ## Theorems -/

/-- Claim C2: the advance-status function maps TODO to IN_PROGRESS,
IN_PROGRESS to DONE, and DONE to TODO, and composing it with itself three
times is the identity on the three statuses. -/
theorem getNextStatus_cycle :
    (getNextStatus TaskStatus.TODO = TaskStatus.IN_PROGRESS ∧
     getNextStatus TaskStatus.IN_PROGRESS = TaskStatus.DONE ∧
     getNextStatus TaskStatus.DONE = TaskStatus.TODO) ∧
    ∀ s : TaskStatus, getNextStatus (getNextStatus (getNextStatus s)) = s := by
  refine ⟨⟨rfl, rfl, rfl⟩, ?_⟩
  intro s
  cases s <;> rfl

/-- Claim C9: the Kanban board's three column filters partition the task
list — a task is in a column exactly when its status matches that column,
and the three column lengths sum to the length of tasks list. -/
theorem tasksByStatus_partition (tasks : List Task) :
    (∀ task ∈ tasks,
      (task ∈ (tasksByStatus tasks).1 ↔ task.status = TaskStatus.TODO) ∧
      (task ∈ (tasksByStatus tasks).2.1 ↔ task.status = TaskStatus.IN_PROGRESS) ∧
      (task ∈ (tasksByStatus tasks).2.2 ↔ task.status = TaskStatus.DONE)) ∧
    (tasksByStatus tasks).1.length + (tasksByStatus tasks).2.1.length +
      (tasksByStatus tasks).2.2.length = tasks.length := by
  constructor
  · intro task hmem
    simp [tasksByStatus, List.mem_filter, hmem]
  · induction tasks with
    | nil => rfl
    | cons t ts ih =>
      simp only [tasksByStatus, List.filter_cons] at ih ⊢
      cases h : t.status <;> simp [h] <;> omega

/-- Claim C9 witness: in a singleton list the sample TODO task lands in the
TODO column and the column sizes sum to one. -/
theorem tasksByStatus_partition_witness :
    sampleTask ∈ (tasksByStatus [sampleTask]).1 ∧
    (tasksByStatus [sampleTask]).1.length +
      (tasksByStatus [sampleTask]).2.1.length +
      (tasksByStatus [sampleTask]).2.2.length = 1 :=
  ⟨(((tasksByStatus_partition [sampleTask]).1 sampleTask (by simp)).1).mpr rfl,
   (tasksByStatus_partition [sampleTask]).2⟩

/-- Claim C4: the add-time handler issues no mutation when the input parses
to NaN or to a non-positive value, and issues exactly the mutation with the
parsed value when it is strictly positive. -/
theorem handleAddTime_guard (timeInput taskId : String) :
    (parseIntJS timeInput = none → handleAddTime timeInput taskId = none) ∧
    (∀ minutes : Int, parseIntJS timeInput = some minutes → minutes ≤ 0 →
      handleAddTime timeInput taskId = none) ∧
    (∀ minutes : Int, parseIntJS timeInput = some minutes → 0 < minutes →
      handleAddTime timeInput taskId = some (taskId, minutes)) := by
  refine ⟨fun h => by simp [handleAddTime, h], ?_, ?_⟩
  · intro minutes hp hle
    simp [handleAddTime, hp]
    omega
  · intro minutes hp hpos
    simp [handleAddTime, hp, hpos]

/-- Claim C4 witness: a non-numeric input and the input 0 each issue no
request; the input 30 issues the add-time mutation with 30 minutes. -/
theorem handleAddTime_guard_witness :
    handleAddTime "abc" "t1" = none ∧
    handleAddTime "0" "t1" = none ∧
    handleAddTime "30" "t1" = some ("t1", 30) :=
  ⟨(handleAddTime_guard "abc" "t1").1 (by decide),
   (handleAddTime_guard "0" "t1").2.1 0 (by decide) (by decide),
   (handleAddTime_guard "30" "t1").2.2 30 (by decide) (by decide)⟩

/-- Claim C1: every task mutation hook's `onSuccess` invalidates the
`['tasks']` key, writes no task data into the cache directly, and leaves the
cache in a state where the next read of the task collection fetches from the
network (returning the server's list). -/
theorem taskMutation_invalidates_tasks (hook : MutationHook)
    (hmem : hook ∈ taskMutationHooks) (task : Task) (cache : QueryCache)
    (server : List Task) :
    ClientEffect.invalidate ["tasks"] ∈ hook.onSuccess task ∧
    (∀ e ∈ hook.onSuccess task, isCacheWrite e = false) ∧
    nextTasksReadHitsNetwork (applyEffects cache (hook.onSuccess task)) = true ∧
    (useTasksRead (applyEffects cache (hook.onSuccess task)) server).1 = server := by
  simp only [taskMutationHooks, List.mem_cons, List.not_mem_nil, or_false] at hmem
  rcases hmem with rfl | rfl | rfl | rfl | rfl <;>
    cases h : cache.tasksData <;>
      simp [useCreateTask, useUpdateTask, useUpdateTaskStatus, useAddTimeToTask,
        useDeleteTask, applyEffects, applyEffect, nextTasksReadHitsNetwork,
        useTasksRead, isCacheWrite, h]

/-- Claim C1 witness: after a successful status-update on a fresh cache the
next read re-fetches. -/
theorem taskMutation_invalidates_tasks_witness :
    nextTasksReadHitsNetwork
      (applyEffects freshCache (useUpdateTaskStatus.onSuccess sampleTask)) = true :=
  (taskMutation_invalidates_tasks useUpdateTaskStatus (by simp [taskMutationHooks])
    sampleTask freshCache []).2.2.1

/-- Claim C5: the error path of a status update (the hook's `onError`
followed by the `mutate`-call `onError` in `handleDragEnd`) leaves the cache
exactly as it was, consists of toast notifications only — no cache write and
no invalidation — and the `['tasks']` invalidation happens solely in the
success handler. -/
theorem statusUpdate_error_atomic (cache : QueryCache) (task : Task) :
    applyEffects cache kanbanStatusUpdateErrorEffects = cache ∧
    (∃ msg, ClientEffect.toastError msg ∈ kanbanStatusUpdateErrorEffects) ∧
    (∀ e ∈ kanbanStatusUpdateErrorEffects,
      isCacheWrite e = false ∧ ∀ key, e ≠ ClientEffect.invalidate key) ∧
    ClientEffect.invalidate ["tasks"] ∈ useUpdateTaskStatus.onSuccess task := by
  refine ⟨rfl,
    ⟨"Failed to update status",
      by simp [kanbanStatusUpdateErrorEffects, useUpdateTaskStatus]⟩,
    ?_, by simp [useUpdateTaskStatus]⟩
  intro e he
  simp only [kanbanStatusUpdateErrorEffects, useUpdateTaskStatus,
    List.mem_append, List.mem_cons, List.not_mem_nil, or_false] at he
  rcases he with rfl | rfl <;> exact ⟨rfl, fun key h => by cases h⟩

/-- Claim C5 witness: on a fresh cache the status-update error path changes
nothing. -/
theorem statusUpdate_error_atomic_witness :
    applyEffects freshCache kanbanStatusUpdateErrorEffects = freshCache :=
  (statusUpdate_error_atomic freshCache sampleTask).1

/-- Claim C8: the query client's defaults retry read queries exactly once,
and no task mutation hook configures `retry`, so a failed mutation performs
zero automatic retries. -/
theorem retryConfig_queries_one_mutations_none (hook : MutationHook)
    (hmem : hook ∈ taskMutationHooks) :
    queryClientDefaults.retry = 1 ∧ hook.retry = none ∧
    effectiveMutationRetries hook = 0 := by
  refine ⟨rfl, ?_⟩
  simp only [taskMutationHooks, List.mem_cons, List.not_mem_nil, or_false] at hmem
  rcases hmem with rfl | rfl | rfl | rfl | rfl <;> exact ⟨rfl, rfl⟩

/-- Claim C8 witness: the add-time hook carries no retry configuration and
retries zero times. -/
theorem retryConfig_queries_one_mutations_none_witness :
    useAddTimeToTask.retry = none ∧ effectiveMutationRetries useAddTimeToTask = 0 :=
  (retryConfig_queries_one_mutations_none useAddTimeToTask
    (by simp [taskMutationHooks])).2

/-- Claim C10: the add-time success toast is `+` followed by the returned
task's accumulated `total_minutes` and `min logged` — the new running total,
which equals the minutes just added exactly when the prior total was zero
(and the toasts genuinely differ otherwise: prior totals 30 and 0 with the
same 15-minute log produce different messages). -/
theorem addTime_toast_shows_new_total (task : Task) (minutes : Nat) :
    useAddTimeToTask.onSuccess (serverAddTime task minutes) =
      [ClientEffect.invalidate ["tasks"],
       ClientEffect.toastSuccess
         ("+" ++ toString (task.total_minutes + minutes) ++ "min logged")] ∧
    (task.total_minutes + minutes = minutes ↔ task.total_minutes = 0) ∧
    useAddTimeToTask.onSuccess
        (serverAddTime { sampleTask with total_minutes := 30 } 15) ≠
      useAddTimeToTask.onSuccess
        (serverAddTime { sampleTask with total_minutes := 0 } 15) :=
  ⟨rfl, by omega, by decide⟩

/-- Claim C3, evaluated at the failing input: every task card is itself a
droppable, so `over.id` can be a sibling card's task id.  Dropping TODO task
`a1` onto card `b1` — both in the TODO column, so the drop target's column
equals the dragged task's current status — nevertheless fires the mutation
`("a1", "b1")`: the string guard `task.status === over.id` compares a status
string with a task id, and the request carries the task id `b1` as the
requested status, which is no status value at all. -/
theorem handleDragEnd_card_drop_bug :
    handleDragEnd [cardTaskA, cardTaskB]
      { activeId := "a1", overId := some "b1" } = some ("a1", "b1") ∧
    cardTaskA.status = TaskStatus.TODO ∧ cardTaskB.status = TaskStatus.TODO ∧
    statusString TaskStatus.TODO ≠ "b1" ∧
    statusString TaskStatus.IN_PROGRESS ≠ "b1" ∧
    statusString TaskStatus.DONE ≠ "b1" := by decide

/-- Claim C6 counterexample: a 404 response whose JSON body carries a
present `detail` field (the empty string) together with `message` "boom" is
thrown with message "boom", not with the present `detail` value — the JS
`||` chain skips falsy present fields, so the thrown message is not the
`detail` field whenever that field is present but empty. -/
theorem request_detail_present_cex :
    ApiClient.request 404 "Not Found"
      (BodyParse.value { detail := some "", message := some "boom" }) =
      RequestOutcome.thrown "boom" ∧
    RequestOutcome.thrown "boom" ≠ RequestOutcome.thrown "" := by decide

/-- Claim C6 (amended): on a 2xx status `request` returns the parsed body;
on a non-2xx status it throws the body's `detail` field when present and
non-empty, else the `message` field when present and non-empty, else the
generic `HTTP <status>: <statusText>` fallback — also used when the body is
not parseable JSON. -/
theorem request_error_message_spec (status : Nat) (statusText : String)
    (b : ErrorBody) :
    (200 ≤ status ∧ status ≤ 299 →
      ApiClient.request status statusText (BodyParse.value b) =
        RequestOutcome.returned b) ∧
    (¬(200 ≤ status ∧ status ≤ 299) →
      ApiClient.request status statusText BodyParse.failure =
        RequestOutcome.thrown (fallbackMessage status statusText) ∧
      (∀ d, b.detail = some d → d ≠ "" →
        ApiClient.request status statusText (BodyParse.value b) =
          RequestOutcome.thrown d) ∧
      ((b.detail = none ∨ b.detail = some "") →
        ∀ m, b.message = some m → m ≠ "" →
          ApiClient.request status statusText (BodyParse.value b) =
            RequestOutcome.thrown m) ∧
      ((b.detail = none ∨ b.detail = some "") →
        (b.message = none ∨ b.message = some "") →
        ApiClient.request status statusText (BodyParse.value b) =
          RequestOutcome.thrown (fallbackMessage status statusText))) := by
  constructor
  · intro hok
    simp [ApiClient.request, hok]
  · intro hko
    refine ⟨by simp [ApiClient.request, hko], ?_, ?_, ?_⟩
    · intro d hd hne
      simp [ApiClient.request, hko, jsOrString, hd, hne]
    · intro hdet m hm hne
      rcases hdet with hd | hd <;>
        simp [ApiClient.request, hko, jsOrString, hd, hm, hne]
    · intro hdet hmsg
      rcases hdet with hd | hd <;> rcases hmsg with hm | hm <;>
        simp [ApiClient.request, hko, jsOrString, hd, hm]

/-- Claim C6 witness: a 404 with a non-empty `detail` field throws that
detail as the error message. -/
theorem request_error_message_spec_witness :
    ApiClient.request 404 "Not Found"
      (BodyParse.value { detail := some "Task not found", message := none }) =
      RequestOutcome.thrown "Task not found" :=
  ((request_error_message_spec 404 "Not Found"
      { detail := some "Task not found", message := none }).2
    (by decide)).2.1 "Task not found" rfl (by decide)

/-- Claim C7 counterexample: with the empty string stored as the access
token — a token present in storage — the `if (token)` truthiness guard
fails, so the request carries no `Authorization` header at all, contradicting
the claim that a stored token always yields `Authorization: Bearer <token>`. -/
theorem getHeaders_empty_token_cex :
    jsTruthy (some "") = false ∧
    ApiClient.requestHeaders (some "") = [("Content-Type", "application/json")] ∧
    ("Authorization", "Bearer " ++ "") ∉ ApiClient.requestHeaders (some "") := by
  decide

/-- Claim C7 (amended): every request carries `Content-Type:
application/json`; when a non-empty access token is stored the request
additionally carries exactly `Authorization: Bearer <token>`; when no token
is stored (or the stored token is empty) no `Authorization` header is
attached. -/
theorem getHeaders_auth_spec (storedToken : Option String) :
    ("Content-Type", "application/json") ∈ ApiClient.requestHeaders storedToken ∧
    (∀ token, storedToken = some token → token ≠ "" →
      ApiClient.requestHeaders storedToken =
        [("Content-Type", "application/json"),
         ("Authorization", "Bearer " ++ token)]) ∧
    ((storedToken = none ∨ storedToken = some "") →
      ∀ v, ("Authorization", v) ∉ ApiClient.requestHeaders storedToken) := by
  refine ⟨?_, ?_, ?_⟩
  · cases storedToken with
    | none => simp [ApiClient.requestHeaders, ApiClient.getHeaders, jsTruthy]
    | some token =>
      by_cases h : token = "" <;>
        simp [ApiClient.requestHeaders, ApiClient.getHeaders, jsTruthy, h]
  · rintro token rfl hne
    simp [ApiClient.requestHeaders, ApiClient.getHeaders, jsTruthy, hne]
  · rintro (rfl | rfl) v <;>
      simp [ApiClient.requestHeaders, ApiClient.getHeaders, jsTruthy]

/-- Claim C7 witness: a stored non-empty token yields exactly the two
headers, with `Authorization: Bearer tok123`. -/
theorem getHeaders_auth_spec_witness :
    ApiClient.requestHeaders (some "tok123") =
      [("Content-Type", "application/json"),
       ("Authorization", "Bearer " ++ "tok123")] :=
  (getHeaders_auth_spec (some "tok123")).2.1 "tok123" rfl (by decide)

end SprintSync
